import Mathlib

/-!
Shallow embedding of the paymass-server off-ramp / wallet code paths.

External HTTP calls (axios via the paycrest, paystack and blockradar
clients) are modelled by passing the call outcome in as an explicit
argument: Except.error m models the client throwing (network error or a
rejected promise) and Except.ok r models a response object delivered to
the code. The Prisma database is modelled as explicit state: lists of
wallet rows, transaction rows and user rows threaded through each
operation. JavaScript truthiness, where a branch depends on it, is
embedded explicitly.
-/

namespace Paymass

/-- A JavaScript value as far as the truthiness-sensitive spots of this
codebase need: a boolean or a number. -/
inductive JSVal where
  | bool (b : Bool)
  | num (n : Int)
deriving Repr, DecidableEq

/-- JavaScript truthiness for the embedded values: false and 0 are falsy. -/
def JSVal.truthy : JSVal → Bool
  | .bool b => b
  | .num n => n != 0

/-- JavaScript a or b on values: returns a when a is truthy, else b. -/
def jsOr (a b : JSVal) : JSVal :=
  if a.truthy then a else b

/-- The guard written in the source as (response.status === 200 || 201):
the disjunction of the strict comparison with the number literal 201,
taken as a truthiness test. -/
def statusGuard (status : Int) : Bool :=
  (jsOr (.bool (status == 200)) (.num 201)).truthy

/-- JavaScript s or d for an optional string field (undefined or null is
modelled as none; the empty string is falsy). -/
def jsStrOrD (o : Option String) (d : String) : String :=
  match o with
  | some s => if s == "" then d else s
  | none => d

/-- JavaScript a or b for two optional string fields, with empty strings
falsy. -/
def jsStrOr (a b : Option String) : Option String :=
  match a with
  | some s => if s == "" then b else some s
  | none => b

/-- Splitting accumulator for the JavaScript String.prototype.split with
a single-character separator; acc holds the current piece reversed. -/
def splitOnCharAux (c : Char) : List Char → List Char → List (List Char)
  | acc, [] => [acc.reverse]
  | acc, x :: rest =>
    if x == c then acc.reverse :: splitOnCharAux c [] rest
    else splitOnCharAux c (x :: acc) rest

/-- JavaScript s.split of a one-character separator. -/
def jsSplitChar (c : Char) (s : String) : List String :=
  (splitOnCharAux c [] s.data).map String.mk

/-- A wallet row of the Prisma wallet table (the fields these code paths
read or write). -/
structure Wallet where
  id : Nat
  userId : String
  assetId : String
  currency : String
  address : String
  privateKey : String
  publicKey : String
  balance : Int
  isActive : Bool
deriving Repr, DecidableEq

/-- A transaction row of the Prisma transaction table (the fields these
code paths read or write). -/
structure Txn where
  id : String
  userId : String
  senderWalletId : Nat
  txType : String
  status : String
  currency : String
  amount : Int
  fee : Int
  externalAddress : String
  externalTxHash : Option String
  description : String
  accountName : Option String
  accountNumber : Option String
  bankName : Option String
deriving Repr, DecidableEq

/-- A user row of the Prisma user table (the fields the webhook reads). -/
structure User where
  id : String
  firebaseToken : Option String
deriving Repr, DecidableEq

/-- The local database state: the three Prisma tables these code paths
touch, plus the id the database would assign to the next created
transaction row. -/
structure DB where
  wallets : List Wallet
  transactions : List Txn
  users : List User
  freshTxnId : String
deriving Repr, DecidableEq

/-- The where-clause of prisma.wallet.findFirst inside withdrawFunds and
transferAsset: userId, assetId, currency and isActive true. -/
def walletMatches (userId assetId currency : String) (w : Wallet) : Bool :=
  w.userId == userId && w.assetId == assetId && w.currency == currency && w.isActive

/-- The where-clause of prisma.wallet.findFirst inside the POST /orders
handler: userId and currency only. -/
def orderWalletMatches (userId currency : String) (w : Wallet) : Bool :=
  w.userId == userId && w.currency == currency

/-- The response body shape of the blockradar withdraw call, as the code
reads it: response.status plus the data fields fee, txHash and
transactionHash. -/
structure WithdrawResp where
  status : Int
  fee : Option Int
  txHash : Option String
  transactionHash : Option String
  message : Option String
deriving Repr, DecidableEq

/-- The error object thrown by withdrawFunds and transferAsset:
an object with success false and a message. -/
structure TAErr where
  success : Bool
  message : String
deriving Repr, DecidableEq

/-- The success return value of withdrawFunds and transferAsset. -/
structure TAOk where
  success : Bool
  transactionId : Option String
  message : String
deriving Repr, DecidableEq

/-- The argument object of WalletService.transferAsset. -/
structure TransferPayload where
  userId : String
  assetId : String
  toAddress : String
  amount : Int
  currency : String
  accountName : String
  accountNumber : String
  institution : String
  description : Option String
deriving Repr, DecidableEq

/-- The external calls the POST /orders flow can make, in the order the
code makes them, plus the compensating call the code never makes. -/
inductive Ev where
  | createOrderCall
  | createOrderSucceeded
  | walletLookup
  | withdrawCall
  | cancelOrderCall
deriving Repr, DecidableEq

/-- The balance update prisma.wallet.update applies on the success
branch: decrement the balance of the row with the given id and leave
every other row as it is. -/
def decrementWallet (wid : Nat) (amount : Int) (w : Wallet) : Wallet :=
  if w.id == wid then { w with balance := w.balance - amount } else w

/-- The transaction row transferAsset creates on the success branch. -/
def mkTransferTxn (freshId : String) (p : TransferPayload) (wallet : Wallet)
    (resp : WithdrawResp) : Txn :=
  { id := freshId
    userId := p.userId
    senderWalletId := wallet.id
    txType := "WITHDRAWAL"
    status := "PROCESSING"
    currency := p.currency
    amount := p.amount
    fee := (resp.fee).getD 0
    externalAddress := p.toAddress
    externalTxHash := jsStrOr resp.txHash resp.transactionHash
    description := jsStrOrD p.description
      ("Transfer " ++ toString p.amount ++ " " ++ p.currency ++ " to " ++ p.toAddress)
    accountName := some p.accountName
    accountNumber := some p.accountNumber
    bankName := some p.institution }

/-- WalletService.transferAsset: find the active wallet for (userId,
assetId, currency), check the balance, call the blockradar withdraw
endpoint, then decrement the balance and create the ledger row. The
result is the returned object or the thrown error object, the new
database state, and the trace of external calls made. -/
def transferAsset (db : DB) (p : TransferPayload)
    (withdrawResult : Except String WithdrawResp) :
    Except TAErr TAOk × DB × List Ev :=
  match db.wallets.find? (walletMatches p.userId p.assetId p.currency) with
  | none => (.error ⟨false, "Wallet not found or unauthorized"⟩, db, [])
  | some wallet =>
    if wallet.balance < p.amount then
      (.error ⟨false, "Insufficient balance"⟩, db, [])
    else
      match withdrawResult with
      | .error m => (.error ⟨false, m⟩, db, [Ev.withdrawCall])
      | .ok resp =>
        if statusGuard resp.status then
          let db' := { db with
            wallets := db.wallets.map (decrementWallet wallet.id p.amount)
            transactions := db.transactions ++ [mkTransferTxn db.freshTxnId p wallet resp] }
          (.ok ⟨true, jsStrOr resp.txHash resp.transactionHash,
            "Withdrawal initiated successfully"⟩, db', [Ev.withdrawCall])
        else
          (.error ⟨false, jsStrOrD resp.message "Withdrawal failed"⟩, db, [Ev.withdrawCall])

/-- The transaction row withdrawFunds creates on the success branch. -/
def mkWithdrawTxn (freshId : String) (userId : String) (wallet : Wallet)
    (toAddress : String) (amount : Int) (currency : String)
    (resp : WithdrawResp) : Txn :=
  { id := freshId
    userId := userId
    senderWalletId := wallet.id
    txType := "WITHDRAWAL"
    status := "PROCESSING"
    currency := currency
    amount := amount
    fee := (resp.fee).getD 0
    externalAddress := toAddress
    externalTxHash := jsStrOr resp.txHash resp.transactionHash
    description := "Withdraw " ++ toString amount ++ " " ++ currency ++ " to " ++ toAddress
    accountName := none
    accountNumber := none
    bankName := none }

/-- WalletService.withdrawFunds: same structure as transferAsset with a
direct axios call and a ledger row without recipient bank fields. -/
def withdrawFunds (db : DB) (userId assetId toAddress : String) (amount : Int)
    (currency : String) (withdrawResult : Except String WithdrawResp) :
    Except TAErr TAOk × DB × List Ev :=
  match db.wallets.find? (walletMatches userId assetId currency) with
  | none => (.error ⟨false, "Wallet not found or unauthorized"⟩, db, [])
  | some wallet =>
    if wallet.balance < amount then
      (.error ⟨false, "Insufficient balance"⟩, db, [])
    else
      match withdrawResult with
      | .error m => (.error ⟨false, m⟩, db, [Ev.withdrawCall])
      | .ok resp =>
        if statusGuard resp.status then
          let db' := { db with
            wallets := db.wallets.map (decrementWallet wallet.id amount)
            transactions := db.transactions ++
              [mkWithdrawTxn db.freshTxnId userId wallet toAddress amount currency resp] }
          (.ok ⟨true, jsStrOr resp.txHash resp.transactionHash,
            "Withdrawal initiated successfully"⟩, db', [Ev.withdrawCall])
        else
          (.error ⟨false, jsStrOrD resp.message "Withdrawal failed"⟩, db, [Ev.withdrawCall])

/-- The recipient object of a Paycrest order request. -/
structure Recipient where
  institution : String
  accountIdentifier : String
  accountName : String
  currency : String
deriving Repr, DecidableEq

/-- The data object of a Paycrest order response, as the handler reads
it (only the fields this flow uses). -/
structure OrderData where
  id : String
  receiveAddress : String
deriving Repr, DecidableEq

/-- The shape of the Paycrest POST /sender/orders response as
initializeOrder reads it: the HTTP status, the body status string, the
body message and the body data object. -/
structure OrderResp where
  status : Int
  bodyStatus : String
  message : Option String
  data : OrderData
deriving Repr, DecidableEq

/-- offrampServices.initializeOrder: posts the order to Paycrest and,
when the guard (response.status === 200 || 201) and the body status
field equal to success both hold, returns the body; otherwise it throws.
A thrown in-branch error is re-wrapped by its own catch, hence the
doubled prefix on that path. -/
def initializeOrder (orderResult : Except String OrderResp) :
    Except String OrderResp :=
  match orderResult with
  | .error m => .error ("Order initialization failed: " ++ m)
  | .ok r =>
    if statusGuard r.status && r.bodyStatus == "success" then
      .ok r
    else
      .error ("Order initialization failed: " ++
        ("Order initialization failed: " ++ jsStrOrD r.message "Unknown error"))

/-- The body of a POST /orders request as the handler destructures it. -/
structure OrdersReq where
  amount : Int
  token : String
  network : String
  rate : Int
  recipient : Recipient
  reference : String
  returnAddress : String
  memo : Option String
deriving Repr, DecidableEq

/-- An HTTP response of the embedded route handlers: the status code and
the success flag and message of the JSON body. -/
structure HttpResp where
  status : Nat
  success : Bool
  message : String
deriving Repr, DecidableEq

/-- The POST /orders route handler: validate the recipient, create the
Paycrest sell order, look up the wallet for the token, and move the
crypto via transferAsset. Returns the response, the new database state
and the trace of external calls; any thrown error is answered with 500
and success false by the catch block. The req.body presence check of the
source is satisfied by construction here, a request body being given. -/
def ordersHandler (db : DB) (userId : String) (req : OrdersReq)
    (orderResult : Except String OrderResp)
    (withdrawResult : Except String WithdrawResp) :
    HttpResp × DB × List Ev :=
  if req.recipient.institution == "" || req.recipient.accountIdentifier == "" ||
      req.recipient.accountName == "" || req.recipient.currency == "" then
    (⟨400, false, "Invalid recipient data"⟩, db, [])
  else
    match initializeOrder orderResult with
    | .error m => (⟨500, false, m⟩, db, [Ev.createOrderCall])
    | .ok order =>
      match db.wallets.find? (orderWalletMatches userId req.token) with
      | some wallet =>
        match transferAsset db
          { userId := userId
            assetId := wallet.assetId
            toAddress := order.data.receiveAddress
            amount := req.amount
            currency := req.token
            accountName := req.recipient.accountName
            accountNumber := req.recipient.accountIdentifier
            institution := req.recipient.institution
            description := some (jsStrOrD req.memo
              ("Offramp order " ++ order.data.id ++ " for " ++
                toString req.amount ++ " " ++ req.token)) }
          withdrawResult with
        | (.ok okRes, db2, tev) =>
          (⟨200, okRes.success, okRes.message⟩, db2,
            [Ev.createOrderCall, Ev.createOrderSucceeded, Ev.walletLookup] ++ tev)
        | (.error e, db2, tev) =>
          (⟨500, false, e.message⟩, db2,
            [Ev.createOrderCall, Ev.createOrderSucceeded, Ev.walletLookup] ++ tev)
      | none =>
        (⟨404, false, "Wallet not found"⟩, db,
          [Ev.createOrderCall, Ev.createOrderSucceeded, Ev.walletLookup])

/-- The data object of a Paycrest settlement webhook event. -/
structure WebhookEvent where
  orderId : String
  status : String
deriving Repr, DecidableEq

/-- A Firebase push message the webhook handler asks firebase-admin to
send. -/
structure Notification where
  token : String
  title : String
  body : String
deriving Repr, DecidableEq

/-- The response of the webhook handler: the HTTP status and whether the
body was the received acknowledgement object. -/
structure WebhookResp where
  status : Nat
  received : Bool
deriving Repr, DecidableEq

/-- transactionStatusTracker, the POST /verify-offramp-transaction
handler: verify the HMAC signature header against the one computed from
the secret and the raw payload, update the transaction row named by the
event to the event status, look up the user and send a push notification
when a Firebase token is on file. A failing prisma update (no such row)
throws, answered 500 by the catch; a failing Firebase send is caught
internally and does not change the response. The hmac argument embeds
the sha256 HMAC as a function of secret and payload. -/
def transactionStatusTracker (db : DB) (hmac : String → String → String)
    (secret payload : String) (sigHeader : Option String)
    (event : WebhookEvent) : WebhookResp × DB × List Notification :=
  if sigHeader != some (hmac secret payload) then
    (⟨403, false⟩, db, [])
  else
    match db.transactions.find? (fun t => t.id == event.orderId) with
    | none => (⟨500, false⟩, db, [])
    | some txn =>
      let db' := { db with
        transactions := db.transactions.map fun t =>
          if t.id == event.orderId then { t with status := event.status } else t }
      match db.users.find? (fun u => u.id == txn.userId) with
      | some user =>
        match user.firebaseToken with
        | some tok =>
          (⟨200, true⟩, db',
            [⟨tok, "Order Completed",
              "Your withdrawal order " ++ event.orderId ++
              " has been successfully completed! Your funds are on their way to your bank account."⟩])
        | none => (⟨200, true⟩, db', [])
      | none => (⟨200, true⟩, db', [])

/-- A route registration: HTTP method, path, the middleware names listed
before the handler, and the handler name. -/
structure Route where
  method : String
  path : String
  middlewares : List String
  handler : String
deriving Repr, DecidableEq

/-- The route registrations of src/routes/ramps.ts, in source order. -/
def rampsRoutes : List Route :=
  [ ⟨"POST", "/rates", ["generalRateLimit", "authenticateToken"], "ratesHandler"⟩
  , ⟨"POST", "/orders", ["generalRateLimit", "authenticateToken"], "ordersHandler"⟩
  , ⟨"GET", "/orders/:orderId", ["generalRateLimit", "authenticateToken"], "orderStatusHandler"⟩
  , ⟨"GET", "/tokens", ["generalRateLimit", "authenticateToken"], "tokensHandler"⟩
  , ⟨"GET", "/currencies", ["generalRateLimit", "authenticateToken"], "currenciesHandler"⟩
  , ⟨"POST", "/verify-account", ["generalRateLimit", "authenticateToken"], "verifyAccountHandler"⟩
  , ⟨"GET", "/banks", ["generalRateLimit", "authenticateToken"], "banksHandler"⟩
  , ⟨"POST", "/verify-offramp-transaction", [], "transactionStatusTracker"⟩ ]

/-- The route registrations of src/routes/wallets.ts, in source order;
express-validator chains are transcribed as the validators entry. -/
def walletsRoutes : List Route :=
  [ ⟨"GET", "/", ["generalRateLimit", "authenticateToken", "validators", "handleValidationErrors"], "getWalletsHandler"⟩
  , ⟨"GET", "/by-network", ["generalRateLimit", "authenticateToken"], "walletsByNetworkHandler"⟩
  , ⟨"GET", "/networks/stats", ["generalRateLimit", "authenticateToken"], "networkStatsHandler"⟩
  , ⟨"GET", "/portfolio", ["generalRateLimit", "authenticateToken"], "portfolioHandler"⟩
  , ⟨"POST", "/debug/create-wallets", ["generalRateLimit", "authenticateToken"], "debugCreateWalletsHandler"⟩
  , ⟨"GET", "/debug/network-configs", ["generalRateLimit", "authenticateToken"], "debugNetworkConfigsHandler"⟩
  , ⟨"POST", "/generate/:network", ["generalRateLimit", "authenticateToken", "validators", "handleValidationErrors"], "generateWalletHandler"⟩
  , ⟨"GET", "/withdraw/network-fee", ["generalRateLimit", "authenticateToken", "validators", "handleValidationErrors"], "networkFeeHandler"⟩
  , ⟨"POST", "/withdraw", ["generalRateLimit", "authenticateToken", "sanitizeInput", "validators", "handleValidationErrors"], "withdrawHandler"⟩
  , ⟨"GET", "/summary", ["generalRateLimit", "authenticateToken", "validators", "handleValidationErrors"], "summaryHandler"⟩
  , ⟨"GET", "/balance", ["generalRateLimit", "authenticateToken", "validators", "handleValidationErrors"], "balanceHandler"⟩
  , ⟨"POST", "/balances", ["generalRateLimit", "authenticateToken", "sanitizeInput", "validators", "handleValidationErrors"], "balancesHandler"⟩
  , ⟨"POST", "/swap", ["generalRateLimit", "authenticateToken", "sanitizeInput", "validators", "handleValidationErrors"], "swapHandler"⟩
  , ⟨"POST", "/get-swap-details", ["generalRateLimit", "authenticateToken", "sanitizeInput", "validators", "handleValidationErrors"], "swapDetailsHandler"⟩ ]

/-- The JWT claims the middleware reads off a verified token. -/
structure JwtClaims where
  userId : String
  email : String
deriving Repr, DecidableEq

/-- The outcome of the authenticateToken middleware: either an immediate
response, or control passed to the handler with req.user set. -/
inductive AuthOutcome where
  | respond (status : Nat) (success : Bool) (message : String)
  | proceed (userId email : String)
deriving Repr, DecidableEq

/-- The token extraction written as authHeader and authHeader.split of a
space at index 1: none models both a missing element and a falsy empty
string, each of which fails the token truthiness check. -/
def extractBearer (authHeader : Option String) : Option String :=
  match authHeader with
  | none => none
  | some h =>
    match (jsSplitChar ' ' h).get? 1 with
    | none => none
    | some t => if t == "" then none else some t

/-- The authenticateToken middleware of src/middleware/auth.ts: 401 when
no token is present, 403 when jwt.verify throws, otherwise set req.user
from the decoded claims and call next. The verify argument embeds
jwt.verify under the configured secret. -/
def authenticateToken (authHeader : Option String)
    (verify : String → Except String JwtClaims) : AuthOutcome :=
  match extractBearer authHeader with
  | none => .respond 401 false "Access token required"
  | some tok =>
    match verify tok with
    | .error _ => .respond 403 false "Invalid or expired token"
    | .ok c => .proceed c.userId c.email

/-- The wallet material generateWalletAddress returns from the
BlockRadar response: the address, the optional private key, and the
public key (falling back to the address when absent). -/
structure ProviderWallet where
  address : String
  privateKey : Option String
  publicKey : String
deriving Repr, DecidableEq

/-- The randomness randomBytes draws in generateFallbackWallet, as the
hex strings the three calls produce. -/
structure FallbackEntropy where
  addrHex : String
  privHex : String
  pubHex : String
deriving Repr, DecidableEq

/-- WalletService.generateFallbackWallet: builds a mock wallet from
locally drawn randomness, a private key included. -/
def generateFallbackWallet (entropy : FallbackEntropy) : ProviderWallet :=
  { address := "0x" ++ entropy.addrHex
    privateKey := some entropy.privHex
    publicKey := entropy.pubHex }

/-- A row of the walletData array createUserWalletsWithBlockRadar hands
to prisma.wallet.create. -/
structure WalletRow where
  assetId : String
  userId : String
  currency : String
  address : String
  privateKey : String
  publicKey : String
deriving Repr, DecidableEq

/-- WalletService.createUserWalletsWithBlockRadar: take the BlockRadar
wallet when the API call succeeded, otherwise fall back to a locally
generated mock wallet; encrypt the private key (throwing when none is
present) and create the three per-currency rows sharing that address and
encrypted key. The encrypt argument embeds EncryptionService.encrypt. -/
def createUserWalletsWithBlockRadar (encrypt : String → String)
    (userId : String) (apiResult : Except String ProviderWallet)
    (entropy : FallbackEntropy) (assetSol assetUsdt assetUsdc : String) :
    Except String (List WalletRow) :=
  let brw := match apiResult with
    | .ok w => w
    | .error _ => generateFallbackWallet entropy
  match brw.privateKey with
  | none => .error "Wallet creation failed"
  | some pk =>
    let enc := encrypt pk
    .ok
      [ ⟨assetSol, userId, "Base", brw.address, enc, brw.publicKey⟩
      , ⟨assetUsdt, userId, "USDT", brw.address, enc, brw.publicKey⟩
      , ⟨assetUsdc, userId, "USDC", brw.address, enc, brw.publicKey⟩ ]

/-- The property C4 asserts of the persisted rows: every stored
privateKey is the encryption of key material returned by the custody
provider, and a key never comes from anywhere else. -/
def keysComeFromProvider (encrypt : String → String) : Prop :=
  ∀ (userId : String) (apiResult : Except String ProviderWallet)
    (entropy : FallbackEntropy) (a b c : String) (rows : List WalletRow),
    createUserWalletsWithBlockRadar encrypt userId apiResult entropy a b c = .ok rows →
    ∀ row ∈ rows, ∃ pw pk, apiResult = .ok pw ∧ pw.privateKey = some pk ∧
      row.privateKey = encrypt pk

/-- JavaScript String.prototype.includes on the embedded strings: sub
occurs somewhere inside s. -/
def isSubAux (needle : List Char) : List Char → Bool
  | [] => needle.isEmpty
  | c :: rest => needle.isPrefixOf (c :: rest) || isSubAux needle rest

/-- JavaScript s.includes of sub. -/
def jsIncludes (s sub : String) : Bool :=
  isSubAux sub.data s.data

/-- A word character of the regex class backslash-w: ASCII letters,
digits and underscore. -/
def isWordChar (c : Char) : Bool :=
  c.isAlphanum || c == '_'

/-- A whitespace character of the regex class backslash-s, over the
ASCII range these inputs use. -/
def isSpaceChar (c : Char) : Bool :=
  c == ' ' || (9 ≤ c.toNat && c.toNat ≤ 13)

/-- One pass of the replace of repeated whitespace by a single space;
the flag records whether the previous kept character was a space run. -/
def collapseSpacesAux : Bool → List Char → List Char
  | _, [] => []
  | prevSpace, c :: rest =>
    if isSpaceChar c then
      if prevSpace then collapseSpacesAux true rest
      else ' ' :: collapseSpacesAux true rest
    else c :: collapseSpacesAux false rest

/-- The normalizeAccountName closure of verifyAccountNumber: drop
characters outside backslash-w and backslash-s, collapse whitespace runs
to a single space, trim, and lowercase. -/
def normalizeAccountName (name : String) : String :=
  let kept := name.data.filter fun c => isWordChar c || isSpaceChar c
  let collapsed := collapseSpacesAux false kept
  let trimmed := (collapsed.dropWhile isSpaceChar).reverse.dropWhile isSpaceChar |>.reverse
  String.mk (trimmed.map Char.toLower)

/-- The 70 percent threshold comparison matches.length / words.length
greater-or-equal 0.7, taken over the rationals: for the word counts
names produce, the double-precision comparison the source makes agrees
with the rational one, and a zero word count gives NaN, which fails the
comparison. -/
def ratioGe70 (m n : Nat) : Bool :=
  n != 0 && 7 * n ≤ 10 * m

/-- offrampServices.fuzzyNameMatch: split both names on single spaces,
keep words longer than two characters, count the words of each that
occur inside (or contain) some word of the other, and require both match
ratios to reach 70 percent. -/
def fuzzyNameMatch (name1 name2 : String) : Bool :=
  let words1 := (jsSplitChar ' ' name1).filter fun w => w.length > 2
  let words2 := (jsSplitChar ' ' name2).filter fun w => w.length > 2
  let matches1 := words1.filter fun w => words2.any fun v => jsIncludes v w || jsIncludes w v
  let matches2 := words2.filter fun w => words1.any fun v => jsIncludes v w || jsIncludes w v
  ratioGe70 matches1.length words1.length && ratioGe70 matches2.length words2.length

/-- The argument object of verifyAccountNumber. -/
structure BankDetails where
  accountNumber : String
  bankName : String
  accountName : String
  bankCode : Option String
deriving Repr, DecidableEq

/-- The Paycrest verify-account response as the code reads it. -/
structure PaycrestVerifyResp where
  status : Int
  bodyStatus : String
  message : Option String
  accountNumber : Option String
  accountName : Option String
  bankName : Option String
deriving Repr, DecidableEq

/-- A bank entry of the Paystack bank list (the fields the code reads). -/
structure PBank where
  name : String
  code : String
deriving Repr, DecidableEq

/-- The Paystack bank-list response: HTTP status, the truthiness of the
body status field, and the bank list. -/
structure BanksResp where
  status : Int
  bodyStatusTruthy : Bool
  banks : List PBank
deriving Repr, DecidableEq

/-- The Paystack account-resolution response as the code reads it. -/
structure ResolveResp where
  status : Int
  bodyStatusTruthy : Bool
  accountName : String
  accountNumber : String
  message : Option String
deriving Repr, DecidableEq

/-- The object verifyAccountNumber returns: the success flag, the data
fields the branches fill, and the mismatch message when present. -/
structure VerifyOut where
  success : Bool
  verified : Bool
  accountNumber : String
  accountName : Option String
  bankName : String
  expectedAccountName : Option String
  providedAccountName : Option String
  message : Option String
deriving Repr, DecidableEq

/-- The Paycrest-only fallback result the three degraded branches
return: success with verified true, fields taken from the Paycrest data
with the request fields as falsy fallbacks. -/
def paycrestOnlyResult (input : BankDetails) (pc : PaycrestVerifyResp) : VerifyOut :=
  { success := true
    verified := true
    accountNumber := jsStrOrD pc.accountNumber input.accountNumber
    accountName := some (jsStrOrD pc.accountName input.accountName)
    bankName := jsStrOrD pc.bankName input.bankName
    expectedAccountName := none
    providedAccountName := none
    message := none }

/-- The bank-name comparison of the Paystack bank search: either name
contains the other, case-insensitively. -/
def bankNameMatches (bankName : String) (b : PBank) : Bool :=
  jsIncludes b.name.toLower bankName.toLower || jsIncludes bankName.toLower b.name.toLower

/-- The account-name comparison of verifyAccountNumber: exact equality
of the normalized names, containment either way, or the fuzzy match. -/
def namesMatch (np ns : String) : Bool :=
  np == ns || jsIncludes np ns || jsIncludes ns np || fuzzyNameMatch np ns

/-- offrampServices.verifyAccountNumber: primary verification with
Paycrest (throwing unless the response is 200 with body status success),
then a best-effort secondary check with Paystack: fetch the bank list,
find a bank whose name matches, resolve the account, and compare the
account names; every degraded Paystack outcome falls back to the
Paycrest-only verified result, and only a completed resolution with
non-matching names yields the mismatch result. -/
def verifyAccountNumber (input : BankDetails)
    (paycrestResult : Except String PaycrestVerifyResp)
    (banksResult : Except String BanksResp)
    (resolveResult : Except String ResolveResp) :
    Except String VerifyOut :=
  match paycrestResult with
  | .error m => .error ("Account verification failed: " ++ m)
  | .ok pc =>
    if !(pc.status == 200 && pc.bodyStatus == "success") then
      .error ("Account verification failed: " ++
        ("Account verification failed: " ++ jsStrOrD pc.message "Unknown error"))
    else
      match banksResult with
      | .error m => .error ("Account verification failed: " ++ m)
      | .ok br =>
        if !(br.status == 200 && br.bodyStatusTruthy) then
          .ok (paycrestOnlyResult input pc)
        else
          match br.banks.find? (bankNameMatches input.bankName) with
          | none => .ok (paycrestOnlyResult input pc)
          | some _ =>
            match resolveResult with
            | .error m => .error ("Account verification failed: " ++ m)
            | .ok rr =>
              if rr.status == 200 && rr.bodyStatusTruthy then
                let np := normalizeAccountName input.accountName.trim.toLower
                let ns := normalizeAccountName rr.accountName.trim.toLower
                if namesMatch np ns then
                  .ok { success := true
                        verified := true
                        accountNumber := rr.accountNumber
                        accountName := some rr.accountName
                        bankName := input.bankName
                        expectedAccountName := none
                        providedAccountName := none
                        message := none }
                else
                  .ok { success := false
                        verified := false
                        accountNumber := rr.accountNumber
                        accountName := none
                        bankName := input.bankName
                        expectedAccountName := some rr.accountName
                        providedAccountName := some input.accountName
                        message := some ("Account name mismatch. Expected: " ++
                          rr.accountName ++ ", but got: " ++ input.accountName) }
              else
                .ok (paycrestOnlyResult input pc)

/-- The POST /verify-account handler response: either the verification
object, or a status with success flag and message for the 400 and 500
branches. -/
inductive VerifyHandlerResp where
  | okOut (status : Nat) (out : VerifyOut)
  | err (status : Nat) (success : Bool) (message : String)
deriving Repr, DecidableEq

/-- The POST /verify-account route handler: 400 when a required field is
missing (falsy), the verification result as JSON otherwise, and 500 with
success false when the service throws. -/
def verifyAccountHandler (input : BankDetails)
    (paycrestResult : Except String PaycrestVerifyResp)
    (banksResult : Except String BanksResp)
    (resolveResult : Except String ResolveResp) : VerifyHandlerResp :=
  if input.accountNumber == "" || input.bankName == "" || input.accountName == "" then
    .err 400 false "Account number, bank name, and account name are required"
  else
    match verifyAccountNumber input paycrestResult banksResult resolveResult with
    | .error m => .err 500 false m
    | .ok out => .okOut 200 out

/-- The CryptoJS primitives src/utils/encryption.ts delegates to,
together with the configured secret key and the salt the one
WordArray.random call of a hashPassword run produces: the service code
is embedded over them. -/
structure CipherLib where
  secretKey : String
  aesEncrypt : String → String → String
  aesDecrypt : String → String → String
  pbkdf2 : String → String → String
  randomSalt : String

/-- EncryptionService.encrypt: AES-encrypt the text under the secret
key and stringify. -/
def EncryptionService.encrypt (lib : CipherLib) (text : String) : String :=
  lib.aesEncrypt text lib.secretKey

/-- EncryptionService.decrypt: AES-decrypt under the secret key and read
the bytes as UTF-8. -/
def EncryptionService.decrypt (lib : CipherLib) (encryptedText : String) : String :=
  lib.aesDecrypt encryptedText lib.secretKey

/-- EncryptionService.hashPassword: draw a random salt, hash the
password with PBKDF2 under that salt, and store salt and hash joined by
a colon. -/
def EncryptionService.hashPassword (lib : CipherLib) (password : String) : String :=
  lib.randomSalt ++ ":" ++ lib.pbkdf2 password lib.randomSalt

/-- EncryptionService.verifyPassword: split the stored value on the
colon, fail when the salt or hash piece is missing or empty (falsy), and
otherwise compare the recomputed PBKDF2 hash with the stored one. -/
def EncryptionService.verifyPassword (lib : CipherLib) (password stored : String) : Bool :=
  match jsSplitChar ':' stored with
  | salt :: hash :: _ =>
    if salt == "" || hash == "" then false
    else lib.pbkdf2 password salt == hash
  | _ => false

section Theorems

/-- The status guard of the three provider-call checks is true for every
status value, because the literal 201 is truthy. -/
theorem statusGuard_true (s : Int) : statusGuard s = true := by
  by_cases h : s = 200 <;> simp [statusGuard, jsOr, JSVal.truthy, h]

/-- C9: the HTTP-status guard written as a disjunction with the literal
201 is true for every possible response status, so transferAsset and
withdrawFunds treat every non-throwing provider response as success (the
explicit failure branch is unreachable), and initializeOrder accepts any
status so long as the body status field equals success. -/
theorem C9_status_guard_always_true :
    (∀ s : Int, statusGuard s = true) ∧
    (∀ (db : DB) (p : TransferPayload) (resp : WithdrawResp),
      (transferAsset db p (.ok resp)).1 =
        match db.wallets.find? (walletMatches p.userId p.assetId p.currency) with
        | none => .error ⟨false, "Wallet not found or unauthorized"⟩
        | some w =>
          if w.balance < p.amount then .error ⟨false, "Insufficient balance"⟩
          else .ok ⟨true, jsStrOr resp.txHash resp.transactionHash,
            "Withdrawal initiated successfully"⟩) ∧
    (∀ (db : DB) (userId assetId toAddress : String) (amount : Int)
        (currency : String) (resp : WithdrawResp),
      (withdrawFunds db userId assetId toAddress amount currency (.ok resp)).1 =
        match db.wallets.find? (walletMatches userId assetId currency) with
        | none => .error ⟨false, "Wallet not found or unauthorized"⟩
        | some w =>
          if w.balance < amount then .error ⟨false, "Insufficient balance"⟩
          else .ok ⟨true, jsStrOr resp.txHash resp.transactionHash,
            "Withdrawal initiated successfully"⟩) ∧
    (∀ r : OrderResp,
      initializeOrder (.ok r) =
        if r.bodyStatus == "success" then .ok r
        else .error ("Order initialization failed: " ++
          ("Order initialization failed: " ++ jsStrOrD r.message "Unknown error"))) := by
  refine ⟨statusGuard_true, ?_, ?_, ?_⟩
  · intro db p resp
    simp only [transferAsset, statusGuard_true]
    rcases db.wallets.find? (walletMatches p.userId p.assetId p.currency) with _ | w
    · rfl
    · by_cases h : w.balance < p.amount <;> simp [h]
  · intro db userId assetId toAddress amount currency resp
    simp only [withdrawFunds, statusGuard_true]
    rcases db.wallets.find? (walletMatches userId assetId currency) with _ | w
    · rfl
    · by_cases h : w.balance < amount <;> simp [h]
  · intro r
    simp only [initializeOrder, statusGuard_true, Bool.true_and]

/-- Splitting a separator-free piece yields the single accumulated piece. -/
theorem splitOnCharAux_no_sep (c : Char) (acc l : List Char) (h : c ∉ l) :
    splitOnCharAux c acc l = [acc.reverse ++ l] := by
  induction l generalizing acc with
  | nil => simp [splitOnCharAux]
  | cons x rest ih =>
    simp only [List.mem_cons, not_or] at h
    have hx : (x == c) = false := beq_eq_false_iff_ne.mpr (Ne.symm h.1)
    simp only [splitOnCharAux, hx, Bool.false_eq_true, if_false, ih (x :: acc) h.2]
    simp

/-- Splitting past the first separator occurrence emits the accumulated
piece and continues on the remainder. -/
theorem splitOnCharAux_append (c : Char) (acc l1 l2 : List Char) (h : c ∉ l1) :
    splitOnCharAux c acc (l1 ++ c :: l2) =
      (acc.reverse ++ l1) :: splitOnCharAux c [] l2 := by
  induction l1 generalizing acc with
  | nil => simp [splitOnCharAux]
  | cons x rest ih =>
    simp only [List.mem_cons, not_or] at h
    have hx : (x == c) = false := beq_eq_false_iff_ne.mpr (Ne.symm h.1)
    simp only [List.cons_append, splitOnCharAux, hx, Bool.false_eq_true, if_false,
      List.append_eq]
    rw [ih (x :: acc) h.2]
    simp

/-- C10: the encryption utilities round-trip. When the underlying AES
pair inverts under the configured secret key, decrypt after encrypt is
the identity; verifyPassword accepts the output of hashPassword for the
same password whenever the salt and the PBKDF2 digest are nonempty and
colon-free, as the hex strings the library produces are; and any stored
value without a colon separator is rejected. -/
theorem C10_encryption_roundtrip :
    (∀ (lib : CipherLib) (s : String),
      (∀ t, lib.aesDecrypt (lib.aesEncrypt t lib.secretKey) lib.secretKey = t) →
      EncryptionService.decrypt lib (EncryptionService.encrypt lib s) = s) ∧
    (∀ (lib : CipherLib) (p : String),
      lib.randomSalt ≠ "" → ':' ∉ lib.randomSalt.data →
      lib.pbkdf2 p lib.randomSalt ≠ "" → ':' ∉ (lib.pbkdf2 p lib.randomSalt).data →
      EncryptionService.verifyPassword lib p (EncryptionService.hashPassword lib p) = true) ∧
    (∀ (lib : CipherLib) (p stored : String), ':' ∉ stored.data →
      EncryptionService.verifyPassword lib p stored = false) := by
  refine ⟨?_, ?_, ?_⟩
  · intro lib s h
    simpa [EncryptionService.decrypt, EncryptionService.encrypt] using h s
  · intro lib p hsne hsc hhne hhc
    have hdata : (lib.randomSalt ++ ":" ++ lib.pbkdf2 p lib.randomSalt).data =
        lib.randomSalt.data ++ ':' :: (lib.pbkdf2 p lib.randomSalt).data := by
      simp [String.data_append]
    have hsplit : jsSplitChar ':' (lib.randomSalt ++ ":" ++ lib.pbkdf2 p lib.randomSalt) =
        [lib.randomSalt, lib.pbkdf2 p lib.randomSalt] := by
      simp only [jsSplitChar, hdata, splitOnCharAux_append ':' [] _ _ hsc,
        splitOnCharAux_no_sep ':' [] _ hhc]
      simp
    simp [EncryptionService.verifyPassword, EncryptionService.hashPassword, hsplit,
      hsne, hhne]
  · intro lib p stored h
    have hsplit : jsSplitChar ':' stored = [stored] := by
      simpa [jsSplitChar] using congrArg (List.map String.mk)
        (splitOnCharAux_no_sep ':' [] stored.data h)
    simp [EncryptionService.verifyPassword, hsplit]

/-- C10 witness: a concrete cipher library instantiating the round-trip
statements. -/
theorem C10_encryption_roundtrip_witness :
    EncryptionService.decrypt
        ⟨"k", fun t _ => t, fun t _ => t, fun p s => p ++ s, "ab"⟩
        (EncryptionService.encrypt
          ⟨"k", fun t _ => t, fun t _ => t, fun p s => p ++ s, "ab"⟩ "msg") = "msg" ∧
    EncryptionService.verifyPassword
        ⟨"k", fun t _ => t, fun t _ => t, fun p s => p ++ s, "ab"⟩
        "pw" (EncryptionService.hashPassword
          ⟨"k", fun t _ => t, fun t _ => t, fun p s => p ++ s, "ab"⟩ "pw") = true ∧
    EncryptionService.verifyPassword
        ⟨"k", fun t _ => t, fun t _ => t, fun p s => p ++ s, "ab"⟩
        "pw" "nocolon" = false := by
  refine ⟨?_, ?_, ?_⟩
  · exact C10_encryption_roundtrip.1 _ "msg" (fun t => rfl)
  · exact C10_encryption_roundtrip.2.1 _ "pw" (by decide) (by decide) (by decide) (by decide)
  · exact C10_encryption_roundtrip.2.2 _ "pw" "nocolon" (by decide)

/-- C7 counterexample: not every ramps and wallets route carries the JWT
middleware; the one exception is the inbound webhook registration, which
lists no middleware before its handler. -/
theorem C7_counterexample_webhook_route_unauthenticated :
    ((rampsRoutes ++ walletsRoutes).all
      fun r => r.middlewares.contains "authenticateToken") = false ∧
    ((rampsRoutes ++ walletsRoutes).filter
      fun r => !(r.middlewares.contains "authenticateToken")) =
      [⟨"POST", "/verify-offramp-transaction", [], "transactionStatusTracker"⟩] := by
  constructor <;> rfl

/-- C7 amended: every ramps and wallets route other than the inbound
webhook POST /verify-offramp-transaction carries the authenticateToken
middleware, and that middleware answers 401 with success false when the
Authorization header yields no bearer token, 403 with success false when
token verification throws, and passes control onward with the decoded
userId and email otherwise. -/
theorem C7_amended_routes_protected :
    (∀ r ∈ rampsRoutes ++ walletsRoutes,
      r.path ≠ "/verify-offramp-transaction" → "authenticateToken" ∈ r.middlewares) ∧
    (∀ (hdr : Option String) (vf : String → Except String JwtClaims),
      extractBearer hdr = none →
      authenticateToken hdr vf = .respond 401 false "Access token required") ∧
    (∀ (hdr : Option String) (vf : String → Except String JwtClaims) (tok m : String),
      extractBearer hdr = some tok → vf tok = .error m →
      authenticateToken hdr vf = .respond 403 false "Invalid or expired token") ∧
    (∀ (hdr : Option String) (vf : String → Except String JwtClaims)
        (tok : String) (c : JwtClaims),
      extractBearer hdr = some tok → vf tok = .ok c →
      authenticateToken hdr vf = .proceed c.userId c.email) := by
  refine ⟨?_, ?_, ?_, ?_⟩
  · decide
  · intro hdr vf h
    simp [authenticateToken, h]
  · intro hdr vf tok m h1 h2
    simp [authenticateToken, h1, h2]
  · intro hdr vf tok c h1 h2
    simp [authenticateToken, h1, h2]

/-- C7 amended witness: the statements instantiated on the POST /rates
route and on concrete headers and verifiers. -/
theorem C7_amended_routes_protected_witness :
    "authenticateToken" ∈
      (⟨"POST", "/rates", ["generalRateLimit", "authenticateToken"], "ratesHandler"⟩ :
        Route).middlewares ∧
    authenticateToken none (fun _ => .ok ⟨"u1", "e1"⟩) =
      .respond 401 false "Access token required" ∧
    authenticateToken (some "Bearer bad") (fun _ => .error "jwt malformed") =
      .respond 403 false "Invalid or expired token" ∧
    authenticateToken (some "Bearer good") (fun _ => .ok ⟨"u1", "e1"⟩) =
      .proceed "u1" "e1" := by
  refine ⟨?_, ?_, ?_, ?_⟩
  · exact C7_amended_routes_protected.1
      ⟨"POST", "/rates", ["generalRateLimit", "authenticateToken"], "ratesHandler"⟩
      (by decide) (by decide)
  · exact C7_amended_routes_protected.2.1 none _ rfl
  · exact C7_amended_routes_protected.2.2.1 (some "Bearer bad") _ "bad" "jwt malformed"
      (by decide) rfl
  · exact C7_amended_routes_protected.2.2.2 (some "Bearer good") _ "good" ⟨"u1", "e1"⟩
      (by decide) rfl

/-- C4 counterexample: with the custody-provider call failing, the
wallet-creation run still persists three rows, and their privateKey is
the encryption of key material drawn from local randomness by
generateFallbackWallet, not of anything the provider returned. -/
theorem C4_counterexample_fallback_key_is_local :
    createUserWalletsWithBlockRadar (fun s => "enc(" ++ s ++ ")") "user-1"
        (.error "BlockRadar API error") ⟨"aa", "bb", "cc"⟩ "sol" "usdt" "usdc" =
      .ok [⟨"sol", "user-1", "Base", "0xaa", "enc(bb)", "cc"⟩,
           ⟨"usdt", "user-1", "USDT", "0xaa", "enc(bb)", "cc"⟩,
           ⟨"usdc", "user-1", "USDC", "0xaa", "enc(bb)", "cc"⟩] ∧
    (generateFallbackWallet ⟨"aa", "bb", "cc"⟩).privateKey = some "bb" ∧
    ¬ keysComeFromProvider (fun s => "enc(" ++ s ++ ")") := by
  refine ⟨rfl, rfl, fun h => ?_⟩
  obtain ⟨pw, pk, hpw, -, -⟩ := h "user-1" (.error "BlockRadar API error")
    ⟨"aa", "bb", "cc"⟩ "sol" "usdt" "usdc" _ rfl
    ⟨"sol", "user-1", "Base", "0xaa", "enc(bb)", "cc"⟩ (by decide)
  cases hpw

/-- C4 amended: when the custody-provider call succeeds, every persisted
row stores the encrypted copy of the private key the provider returned;
when the call fails, the code falls back to generateFallbackWallet and
every persisted row stores the encrypted copy of that locally generated
mock key. -/
theorem C4_amended_key_provenance :
    ∀ (encrypt : String → String) (u : String)
      (api : Except String ProviderWallet) (ent : FallbackEntropy)
      (a b c : String) (rows : List WalletRow),
      createUserWalletsWithBlockRadar encrypt u api ent a b c = .ok rows →
      ∀ row ∈ rows,
        (∀ pw, api = .ok pw →
          ∃ pk, pw.privateKey = some pk ∧ row.privateKey = encrypt pk) ∧
        (∀ m, api = .error m → row.privateKey = encrypt ent.privHex) := by
  intro encrypt u api ent a b c rows hrun row hmem
  cases api with
  | ok pw =>
    cases hpk : pw.privateKey with
    | none => simp [createUserWalletsWithBlockRadar, hpk] at hrun
    | some pk =>
      simp only [createUserWalletsWithBlockRadar, hpk, Except.ok.injEq] at hrun
      subst hrun
      simp only [List.mem_cons, List.not_mem_nil, or_false] at hmem
      constructor
      · intro pw' hpw'
        injection hpw' with hpw2
        subst hpw2
        refine ⟨pk, hpk, ?_⟩
        rcases hmem with rfl | rfl | rfl <;> rfl
      · intro m hm
        cases hm
  | error m =>
    simp only [createUserWalletsWithBlockRadar, generateFallbackWallet,
      Except.ok.injEq] at hrun
    subst hrun
    simp only [List.mem_cons, List.not_mem_nil, or_false] at hmem
    constructor
    · intro pw' hpw'
      cases hpw'
    · intro m' hm'
      rcases hmem with rfl | rfl | rfl <;> rfl

/-- C4 amended witness: the provenance statement instantiated on a
successful provider call. -/
theorem C4_amended_key_provenance_witness :
    (⟨"sol", "u1", "Base", "addr1", "enc(pk1)", "pub1"⟩ : WalletRow).privateKey =
      (fun s => "enc(" ++ s ++ ")") "pk1" := by
  obtain ⟨pk, hpk, henc⟩ :=
    (C4_amended_key_provenance (fun s => "enc(" ++ s ++ ")") "u1"
      (.ok ⟨"addr1", some "pk1", "pub1"⟩) ⟨"aa", "bb", "cc"⟩ "sol" "usdt" "usdc"
      [⟨"sol", "u1", "Base", "addr1", "enc(pk1)", "pub1"⟩,
       ⟨"usdt", "u1", "USDT", "addr1", "enc(pk1)", "pub1"⟩,
       ⟨"usdc", "u1", "USDC", "addr1", "enc(pk1)", "pub1"⟩] rfl
      ⟨"sol", "u1", "Base", "addr1", "enc(pk1)", "pub1"⟩ (by simp)).1
      ⟨"addr1", some "pk1", "pub1"⟩ rfl
  cases hpk
  exact henc

/-- C3: the ramps router registers the inbound webhook POST
/verify-offramp-transaction with transactionStatusTracker as its
handler, and on a correctly signed settlement event whose order has a
matching transaction row and a user with a Firebase token on file, the
handler acknowledges with 200, sets the status of the corresponding
transaction row to the status the provider sent, and sends exactly one
push notification to that user's device token. -/
theorem C3_webhook_tracks_and_notifies :
    (⟨"POST", "/verify-offramp-transaction", [], "transactionStatusTracker"⟩ : Route)
      ∈ rampsRoutes ∧
    (∀ (db : DB) (hmac : String → String → String) (secret payload : String)
        (ev : WebhookEvent) (txn : Txn) (user : User) (tok : String),
      db.transactions.find? (fun t => t.id == ev.orderId) = some txn →
      db.users.find? (fun u => u.id == txn.userId) = some user →
      user.firebaseToken = some tok →
      (transactionStatusTracker db hmac secret payload (some (hmac secret payload)) ev).1 =
        ⟨200, true⟩ ∧
      (∀ t ∈ (transactionStatusTracker db hmac secret payload
          (some (hmac secret payload)) ev).2.1.transactions,
        t.id = ev.orderId → t.status = ev.status) ∧
      (∃ n, (transactionStatusTracker db hmac secret payload
          (some (hmac secret payload)) ev).2.2 = [n] ∧ n.token = tok)) := by
  constructor
  · decide
  · intro db hmac secret payload ev txn user tok htxn huser htok
    have hsig : ((some (hmac secret payload) : Option String) !=
        some (hmac secret payload)) = false := by simp
    refine ⟨?_, ?_, ?_⟩
    · simp [transactionStatusTracker, hsig, htxn, huser, htok]
    · intro t ht hid
      simp only [transactionStatusTracker, hsig, Bool.false_eq_true, if_false,
        htxn, huser, htok] at ht
      simp only [List.mem_map] at ht
      obtain ⟨t0, _, rfl⟩ := ht
      by_cases h0 : t0.id = ev.orderId
      · simp [h0]
      · have : (t0.id == ev.orderId) = false := beq_eq_false_iff_ne.mpr h0
        rw [this] at hid ⊢
        exact absurd hid h0
    · refine ⟨⟨tok, "Order Completed",
        "Your withdrawal order " ++ ev.orderId ++
          " has been successfully completed! Your funds are on their way to your bank account."⟩,
        ?_, rfl⟩
      simp [transactionStatusTracker, hsig, htxn, huser, htok]

/-- C3 witness: the webhook statement instantiated on a one-transaction
database and a concrete signature function. -/
theorem C3_webhook_tracks_and_notifies_witness :
    (transactionStatusTracker
      ⟨[], [⟨"ord-1", "u1", 0, "WITHDRAWAL", "PROCESSING", "USDT", 5, 0, "0xdead",
        none, "d", none, none, none⟩], [⟨"u1", some "fbtok"⟩], "t-2"⟩
      (fun a b => a ++ b) "sec" "payload"
      (some "secpayload") ⟨"ord-1", "validated"⟩).1 = ⟨200, true⟩ := by
  exact (C3_webhook_tracks_and_notifies.2
    ⟨[], [⟨"ord-1", "u1", 0, "WITHDRAWAL", "PROCESSING", "USDT", 5, 0, "0xdead",
      none, "d", none, none, none⟩], [⟨"u1", some "fbtok"⟩], "t-2"⟩
    (fun a b => a ++ b) "sec" "payload" ⟨"ord-1", "validated"⟩
    ⟨"ord-1", "u1", 0, "WITHDRAWAL", "PROCESSING", "USDT", 5, 0, "0xdead",
      none, "d", none, none, none⟩
    ⟨"u1", some "fbtok"⟩ "fbtok" (by decide) (by decide) rfl).1

/-- C5: when an active wallet matches the caller's userId, assetId and
currency and holds at least the requested amount, a successful
transferAsset run reports success, replaces the wallet table by the one
where exactly the matched row's balance is decremented by the amount
(every other row kept as it is), and appends exactly one WITHDRAWAL row
in PROCESSING state carrying the amount, currency and recipient details;
withdrawFunds behaves the same with its own ledger row. -/
theorem C5_withdrawal_ledger_effects :
    (∀ (db : DB) (p : TransferPayload) (resp : WithdrawResp) (w : Wallet),
      db.wallets.find? (walletMatches p.userId p.assetId p.currency) = some w →
      ¬ w.balance < p.amount →
      (transferAsset db p (.ok resp)).1 =
        .ok ⟨true, jsStrOr resp.txHash resp.transactionHash,
          "Withdrawal initiated successfully"⟩ ∧
      (transferAsset db p (.ok resp)).2.1.wallets =
        db.wallets.map (decrementWallet w.id p.amount) ∧
      (transferAsset db p (.ok resp)).2.1.transactions =
        db.transactions ++ [mkTransferTxn db.freshTxnId p w resp] ∧
      { w with balance := w.balance - p.amount } ∈ (transferAsset db p (.ok resp)).2.1.wallets ∧
      (∀ w0 ∈ db.wallets, w0.id ≠ w.id → w0 ∈ (transferAsset db p (.ok resp)).2.1.wallets) ∧
      (mkTransferTxn db.freshTxnId p w resp).txType = "WITHDRAWAL" ∧
      (mkTransferTxn db.freshTxnId p w resp).status = "PROCESSING" ∧
      (mkTransferTxn db.freshTxnId p w resp).amount = p.amount ∧
      (mkTransferTxn db.freshTxnId p w resp).currency = p.currency ∧
      (mkTransferTxn db.freshTxnId p w resp).externalAddress = p.toAddress ∧
      (mkTransferTxn db.freshTxnId p w resp).accountName = some p.accountName ∧
      (mkTransferTxn db.freshTxnId p w resp).accountNumber = some p.accountNumber ∧
      (mkTransferTxn db.freshTxnId p w resp).bankName = some p.institution) ∧
    (∀ (db : DB) (userId assetId toAddress : String) (amount : Int) (currency : String)
        (resp : WithdrawResp) (w : Wallet),
      db.wallets.find? (walletMatches userId assetId currency) = some w →
      ¬ w.balance < amount →
      (withdrawFunds db userId assetId toAddress amount currency (.ok resp)).1 =
        .ok ⟨true, jsStrOr resp.txHash resp.transactionHash,
          "Withdrawal initiated successfully"⟩ ∧
      (withdrawFunds db userId assetId toAddress amount currency (.ok resp)).2.1.wallets =
        db.wallets.map (decrementWallet w.id amount) ∧
      (withdrawFunds db userId assetId toAddress amount currency (.ok resp)).2.1.transactions =
        db.transactions ++ [mkWithdrawTxn db.freshTxnId userId w toAddress amount currency resp] ∧
      { w with balance := w.balance - amount } ∈
        (withdrawFunds db userId assetId toAddress amount currency (.ok resp)).2.1.wallets ∧
      (∀ w0 ∈ db.wallets, w0.id ≠ w.id →
        w0 ∈ (withdrawFunds db userId assetId toAddress amount currency (.ok resp)).2.1.wallets) ∧
      (mkWithdrawTxn db.freshTxnId userId w toAddress amount currency resp).txType = "WITHDRAWAL" ∧
      (mkWithdrawTxn db.freshTxnId userId w toAddress amount currency resp).status = "PROCESSING" ∧
      (mkWithdrawTxn db.freshTxnId userId w toAddress amount currency resp).amount = amount ∧
      (mkWithdrawTxn db.freshTxnId userId w toAddress amount currency resp).currency = currency ∧
      (mkWithdrawTxn db.freshTxnId userId w toAddress amount currency resp).externalAddress = toAddress) := by
  constructor
  · intro db p resp w h1 h2
    have hmem : w ∈ db.wallets := List.mem_of_find?_eq_some h1
    have hself : decrementWallet w.id p.amount w = { w with balance := w.balance - p.amount } := by
      simp [decrementWallet]
    refine ⟨?_, ?_, ?_, ?_, ?_, rfl, rfl, rfl, rfl, rfl, rfl, rfl, rfl⟩
    · simp [transferAsset, h1, h2, statusGuard_true]
    · simp [transferAsset, h1, h2, statusGuard_true]
    · simp [transferAsset, h1, h2, statusGuard_true]
    · simp only [transferAsset, h1, h2, statusGuard_true, if_true, if_false]
      rw [← hself]
      exact List.mem_map_of_mem _ hmem
    · intro w0 hw0 hne
      have hkeep : decrementWallet w.id p.amount w0 = w0 := by
        simp [decrementWallet, beq_eq_false_iff_ne.mpr hne]
      simp only [transferAsset, h1, h2, statusGuard_true, if_true, if_false]
      rw [← hkeep]
      exact List.mem_map_of_mem _ hw0
  · intro db userId assetId toAddress amount currency resp w h1 h2
    have hmem : w ∈ db.wallets := List.mem_of_find?_eq_some h1
    have hself : decrementWallet w.id amount w = { w with balance := w.balance - amount } := by
      simp [decrementWallet]
    refine ⟨?_, ?_, ?_, ?_, ?_, rfl, rfl, rfl, rfl, rfl⟩
    · simp [withdrawFunds, h1, h2, statusGuard_true]
    · simp [withdrawFunds, h1, h2, statusGuard_true]
    · simp [withdrawFunds, h1, h2, statusGuard_true]
    · simp only [withdrawFunds, h1, h2, statusGuard_true, if_true, if_false]
      rw [← hself]
      exact List.mem_map_of_mem _ hmem
    · intro w0 hw0 hne
      have hkeep : decrementWallet w.id amount w0 = w0 := by
        simp [decrementWallet, beq_eq_false_iff_ne.mpr hne]
      simp only [withdrawFunds, h1, h2, statusGuard_true, if_true, if_false]
      rw [← hkeep]
      exact List.mem_map_of_mem _ hw0

/-- C5 witness: the ledger-effect statement instantiated on a
one-wallet database with sufficient balance. -/
theorem C5_withdrawal_ledger_effects_witness :
    (transferAsset
      ⟨[⟨1, "u1", "asset1", "USDT", "addrX", "pk", "pub", 10, true⟩], [], [], "t-1"⟩
      ⟨"u1", "asset1", "0xto", 5, "USDT", "Ada Lovelace", "0123456789", "BankX", none⟩
      (.ok ⟨200, some 1, some "hash1", none, none⟩)).1 =
      .ok ⟨true, some "hash1", "Withdrawal initiated successfully"⟩ := by
  have h := (C5_withdrawal_ledger_effects.1
    ⟨[⟨1, "u1", "asset1", "USDT", "addrX", "pk", "pub", 10, true⟩], [], [], "t-1"⟩
    ⟨"u1", "asset1", "0xto", 5, "USDT", "Ada Lovelace", "0123456789", "BankX", none⟩
    ⟨200, some 1, some "hash1", none, none⟩
    ⟨1, "u1", "asset1", "USDT", "addrX", "pk", "pub", 10, true⟩
    (by decide) (by decide)).1
  simpa [jsStrOr] using h

/-- A transferAsset run either makes no external call (wallet missing or
balance short) or makes exactly the one withdrawal call. -/
theorem transferAsset_trace (db : DB) (p : TransferPayload)
    (wr : Except String WithdrawResp) :
    (transferAsset db p wr).2.2 = [] ∨ (transferAsset db p wr).2.2 = [Ev.withdrawCall] := by
  unfold transferAsset
  rcases db.wallets.find? (walletMatches p.userId p.assetId p.currency) with _ | w
  · left; rfl
  · by_cases hb : w.balance < p.amount
    · left; simp [hb]
    · rcases wr with m | resp
      · right; simp [hb]
      · by_cases hs : statusGuard resp.status = true
        · right; simp [hb, hs]
        · right; simp [hb, hs]

/-- C1: in every POST /orders run whose trace contains the custody
withdrawal call, the trace is exactly the Paycrest order-creation call,
its success, the wallet lookup for the order's token, and then the
withdrawal call — the crypto is never moved before the sell order
exists. -/
theorem C1_order_before_withdrawal :
    ∀ (db : DB) (userId : String) (req : OrdersReq)
      (orderResult : Except String OrderResp)
      (withdrawResult : Except String WithdrawResp),
      Ev.withdrawCall ∈ (ordersHandler db userId req orderResult withdrawResult).2.2 →
      (ordersHandler db userId req orderResult withdrawResult).2.2 =
        [Ev.createOrderCall, Ev.createOrderSucceeded, Ev.walletLookup, Ev.withdrawCall] := by
  intro db userId req orderResult withdrawResult h
  have hshape : (ordersHandler db userId req orderResult withdrawResult).2.2 = [] ∨
      (ordersHandler db userId req orderResult withdrawResult).2.2 = [Ev.createOrderCall] ∨
      (ordersHandler db userId req orderResult withdrawResult).2.2 =
        [Ev.createOrderCall, Ev.createOrderSucceeded, Ev.walletLookup] ∨
      (ordersHandler db userId req orderResult withdrawResult).2.2 =
        [Ev.createOrderCall, Ev.createOrderSucceeded, Ev.walletLookup, Ev.withdrawCall] := by
    unfold ordersHandler
    by_cases hv : (req.recipient.institution == "" || req.recipient.accountIdentifier == "" ||
        req.recipient.accountName == "" || req.recipient.currency == "") = true
    · rw [if_pos hv]
      exact Or.inl rfl
    · rw [if_neg hv]
      rcases ho : initializeOrder orderResult with m | order
      · exact Or.inr (Or.inl rfl)
      · dsimp only
        rcases hw : db.wallets.find? (orderWalletMatches userId req.token) with _ | wallet
        · exact Or.inr (Or.inr (Or.inl rfl))
        · dsimp only
          have htr := transferAsset_trace db
            { userId := userId
              assetId := wallet.assetId
              toAddress := order.data.receiveAddress
              amount := req.amount
              currency := req.token
              accountName := req.recipient.accountName
              accountNumber := req.recipient.accountIdentifier
              institution := req.recipient.institution
              description := some (jsStrOrD req.memo
                ("Offramp order " ++ order.data.id ++ " for " ++
                  toString req.amount ++ " " ++ req.token)) }
            withdrawResult
          rcases hres : transferAsset db
            { userId := userId
              assetId := wallet.assetId
              toAddress := order.data.receiveAddress
              amount := req.amount
              currency := req.token
              accountName := req.recipient.accountName
              accountNumber := req.recipient.accountIdentifier
              institution := req.recipient.institution
              description := some (jsStrOrD req.memo
                ("Offramp order " ++ order.data.id ++ " for " ++
                  toString req.amount ++ " " ++ req.token)) }
            withdrawResult with ⟨res, db2, tev⟩
          rw [hres] at htr
          simp only at htr
          rcases htr with ht | ht <;> subst ht <;> rcases res with e | okRes
          · exact Or.inr (Or.inr (Or.inl rfl))
          · exact Or.inr (Or.inr (Or.inl rfl))
          · exact Or.inr (Or.inr (Or.inr rfl))
          · exact Or.inr (Or.inr (Or.inr rfl))
  rcases hshape with hs | hs | hs | hs
  · rw [hs] at h
    simp at h
  · rw [hs] at h
    simp at h
  · rw [hs] at h
    simp at h
  · exact hs

/-- C1 witness: a run that reaches the withdrawal call has exactly the
ordered four-event trace. -/
theorem C1_order_before_withdrawal_witness :
    (ordersHandler
      ⟨[⟨1, "u1", "asset1", "USDT", "addrX", "pk", "pub", 10, true⟩], [], [], "t-1"⟩
      "u1"
      ⟨5, "USDT", "base", 1500, ⟨"BankX", "0123456789", "Ada Lovelace", "NGN"⟩, "ref-1",
        "0xback", none⟩
      (.ok ⟨201, "success", none, ⟨"ord-1", "0xreceive"⟩⟩)
      (.ok ⟨200, some 1, some "hash1", none, none⟩)).2.2 =
      [Ev.createOrderCall, Ev.createOrderSucceeded, Ev.walletLookup, Ev.withdrawCall] := by
  apply C1_order_before_withdrawal
  decide

/-- C2: when the custody withdrawal call throws inside transferAsset
after the Paycrest sell order was created, the POST /orders handler
answers 500 with success false and the thrown message, the database is
returned exactly as it was (no balance change, no transaction row), and
the trace holds no compensating cancel call for the already-created sell
order. -/
theorem C2_withdraw_throw_leaves_no_recovery_state :
    ∀ (db : DB) (userId : String) (req : OrdersReq)
      (orderResult : Except String OrderResp) (order : OrderResp)
      (w w2 : Wallet) (m : String),
      req.recipient.institution ≠ "" → req.recipient.accountIdentifier ≠ "" →
      req.recipient.accountName ≠ "" → req.recipient.currency ≠ "" →
      initializeOrder orderResult = .ok order →
      db.wallets.find? (orderWalletMatches userId req.token) = some w →
      db.wallets.find? (walletMatches userId w.assetId req.token) = some w2 →
      ¬ w2.balance < req.amount →
      ordersHandler db userId req orderResult (.error m) =
        (⟨500, false, m⟩, db,
          [Ev.createOrderCall, Ev.createOrderSucceeded, Ev.walletLookup, Ev.withdrawCall]) ∧
      Ev.cancelOrderCall ∉ (ordersHandler db userId req orderResult (.error m)).2.2 := by
  intro db userId req orderResult order w w2 m h1 h2 h3 h4 ho hw hw2 hb
  have hv : (req.recipient.institution == "" || req.recipient.accountIdentifier == "" ||
      req.recipient.accountName == "" || req.recipient.currency == "") = false := by
    simp [beq_eq_false_iff_ne.mpr h1, beq_eq_false_iff_ne.mpr h2,
      beq_eq_false_iff_ne.mpr h3, beq_eq_false_iff_ne.mpr h4]
  have hta : transferAsset db
      { userId := userId
        assetId := w.assetId
        toAddress := order.data.receiveAddress
        amount := req.amount
        currency := req.token
        accountName := req.recipient.accountName
        accountNumber := req.recipient.accountIdentifier
        institution := req.recipient.institution
        description := some (jsStrOrD req.memo
          ("Offramp order " ++ order.data.id ++ " for " ++
            toString req.amount ++ " " ++ req.token)) }
      (.error m) = (.error ⟨false, m⟩, db, [Ev.withdrawCall]) := by
    simp only [transferAsset, hw2]
    rw [if_neg hb]
  have hmain : ordersHandler db userId req orderResult (.error m) =
      (⟨500, false, m⟩, db,
        [Ev.createOrderCall, Ev.createOrderSucceeded, Ev.walletLookup, Ev.withdrawCall]) := by
    unfold ordersHandler
    rw [hv]
    simp only [Bool.false_eq_true, if_false]
    rw [ho]
    dsimp only
    rw [hw]
    dsimp only
    rw [hta]
    rfl
  refine ⟨hmain, ?_⟩
  rw [hmain]
  dsimp only
  decide

/-- C2 witness: the failure-path statement instantiated on a one-wallet
database and a throwing withdrawal call. -/
theorem C2_withdraw_throw_leaves_no_recovery_state_witness :
    ordersHandler
      ⟨[⟨1, "u1", "asset1", "USDT", "addrX", "pk", "pub", 10, true⟩], [], [], "t-1"⟩
      "u1"
      ⟨5, "USDT", "base", 1500, ⟨"BankX", "0123456789", "Ada Lovelace", "NGN"⟩, "ref-1",
        "0xback", none⟩
      (.ok ⟨201, "success", none, ⟨"ord-1", "0xreceive"⟩⟩)
      (.error "Network error") =
      (⟨500, false, "Network error"⟩,
        ⟨[⟨1, "u1", "asset1", "USDT", "addrX", "pk", "pub", 10, true⟩], [], [], "t-1"⟩,
        [Ev.createOrderCall, Ev.createOrderSucceeded, Ev.walletLookup, Ev.withdrawCall]) := by
  exact (C2_withdraw_throw_leaves_no_recovery_state
    ⟨[⟨1, "u1", "asset1", "USDT", "addrX", "pk", "pub", 10, true⟩], [], [], "t-1"⟩
    "u1"
    ⟨5, "USDT", "base", 1500, ⟨"BankX", "0123456789", "Ada Lovelace", "NGN"⟩, "ref-1",
      "0xback", none⟩
    (.ok ⟨201, "success", none, ⟨"ord-1", "0xreceive"⟩⟩)
    ⟨201, "success", none, ⟨"ord-1", "0xreceive"⟩⟩
    ⟨1, "u1", "asset1", "USDT", "addrX", "pk", "pub", 10, true⟩
    ⟨1, "u1", "asset1", "USDT", "addrX", "pk", "pub", 10, true⟩
    "Network error"
    (by decide) (by decide) (by decide) (by decide)
    rfl (by decide) (by decide) (by decide)).1

/-- C6: bank-account verification requires the primary Paycrest check:
a throwing Paycrest call or a Paycrest response that is not HTTP 200
with body status success makes verifyAccountNumber throw (and the POST
/verify-account route answer 500 with success false), and any returned
verified result implies the primary check passed. -/
theorem C6_primary_verification_required :
    (∀ (input : BankDetails) (m : String) (b : Except String BanksResp)
        (r : Except String ResolveResp),
      verifyAccountNumber input (.error m) b r =
        .error ("Account verification failed: " ++ m)) ∧
    (∀ (input : BankDetails) (pc : PaycrestVerifyResp) (b : Except String BanksResp)
        (r : Except String ResolveResp),
      ¬(pc.status = 200 ∧ pc.bodyStatus = "success") →
      verifyAccountNumber input (.ok pc) b r =
        .error ("Account verification failed: " ++
          ("Account verification failed: " ++ jsStrOrD pc.message "Unknown error"))) ∧
    (∀ (input : BankDetails) (pcr : Except String PaycrestVerifyResp)
        (b : Except String BanksResp) (r : Except String ResolveResp) (out : VerifyOut),
      verifyAccountNumber input pcr b r = .ok out → out.verified = true →
      ∃ pc, pcr = .ok pc ∧ pc.status = 200 ∧ pc.bodyStatus = "success") ∧
    (∀ (input : BankDetails) (pc : PaycrestVerifyResp) (b : Except String BanksResp)
        (r : Except String ResolveResp),
      input.accountNumber ≠ "" → input.bankName ≠ "" → input.accountName ≠ "" →
      ¬(pc.status = 200 ∧ pc.bodyStatus = "success") →
      verifyAccountHandler input (.ok pc) b r =
        .err 500 false ("Account verification failed: " ++
          ("Account verification failed: " ++ jsStrOrD pc.message "Unknown error"))) := by
  have hfail : ∀ (pc : PaycrestVerifyResp), ¬(pc.status = 200 ∧ pc.bodyStatus = "success") →
      (pc.status == 200 && pc.bodyStatus == "success") = false := by
    intro pc h
    apply Bool.eq_false_iff.mpr
    intro hx
    exact h (by simpa [Bool.and_eq_true, beq_iff_eq] using hx)
  refine ⟨?_, ?_, ?_, ?_⟩
  · intro input m b r
    rfl
  · intro input pc b r h
    simp [verifyAccountNumber, hfail pc h]
  · intro input pcr b r out hrun hver
    cases pcr with
    | error m => simp [verifyAccountNumber] at hrun
    | ok pc =>
      by_cases hc : (pc.status == 200 && pc.bodyStatus == "success") = true
      · exact ⟨pc, rfl, by simpa [Bool.and_eq_true, beq_iff_eq] using hc⟩
      · simp [verifyAccountNumber, Bool.eq_false_iff.mpr hc] at hrun
  · intro input pc b r h1 h2 h3 h
    have hv : (input.accountNumber == "" || input.bankName == "" ||
        input.accountName == "") = false := by
      simp [beq_eq_false_iff_ne.mpr h1, beq_eq_false_iff_ne.mpr h2,
        beq_eq_false_iff_ne.mpr h3]
    simp [verifyAccountHandler, hv, verifyAccountNumber, hfail pc h]

/-- C6 witness: the primary-check statements instantiated on a concrete
failing Paycrest response. -/
theorem C6_primary_verification_required_witness :
    verifyAccountNumber ⟨"0123456789", "GTBank", "Ada Lovelace", none⟩
        (.ok ⟨400, "error", some "invalid account", none, none, none⟩)
        (.ok ⟨200, true, []⟩) (.error "x") =
      .error "Account verification failed: Account verification failed: invalid account" ∧
    verifyAccountHandler ⟨"0123456789", "GTBank", "Ada Lovelace", none⟩
        (.ok ⟨400, "error", some "invalid account", none, none, none⟩)
        (.ok ⟨200, true, []⟩) (.error "x") =
      .err 500 false
        "Account verification failed: Account verification failed: invalid account" := by
  constructor
  · have h := C6_primary_verification_required.2.1
      ⟨"0123456789", "GTBank", "Ada Lovelace", none⟩
      ⟨400, "error", some "invalid account", none, none, none⟩
      (.ok ⟨200, true, []⟩) (.error "x") (by decide)
    simpa [jsStrOrD] using h
  · have h := C6_primary_verification_required.2.2.2
      ⟨"0123456789", "GTBank", "Ada Lovelace", none⟩
      ⟨400, "error", some "invalid account", none, none, none⟩
      (.ok ⟨200, true, []⟩) (.error "x")
      (by decide) (by decide) (by decide) (by decide)
    simpa [jsStrOrD] using h

/-- C8: the secondary Paystack check is best-effort. With the primary
Paycrest check passed, a failed bank-list fetch, an unmatched bank name
(the match being a case-insensitive substring test in either direction),
or a failed account resolution each yield the Paycrest-only result with
success true and verified true; the mismatch result with success false
and verified false arises only from a completed resolution whose account
name fails the exact, containment and 70-percent fuzzy comparisons. -/
theorem C8_paystack_best_effort :
    (∀ (input : BankDetails) (pc : PaycrestVerifyResp) (br : BanksResp)
        (r : Except String ResolveResp),
      pc.status = 200 → pc.bodyStatus = "success" →
      ¬(br.status = 200 ∧ br.bodyStatusTruthy = true) →
      verifyAccountNumber input (.ok pc) (.ok br) r = .ok (paycrestOnlyResult input pc) ∧
      (paycrestOnlyResult input pc).success = true ∧
      (paycrestOnlyResult input pc).verified = true) ∧
    (∀ (input : BankDetails) (pc : PaycrestVerifyResp) (br : BanksResp)
        (r : Except String ResolveResp),
      pc.status = 200 → pc.bodyStatus = "success" →
      br.status = 200 → br.bodyStatusTruthy = true →
      br.banks.find? (bankNameMatches input.bankName) = none →
      verifyAccountNumber input (.ok pc) (.ok br) r = .ok (paycrestOnlyResult input pc)) ∧
    (∀ (input : BankDetails) (pc : PaycrestVerifyResp) (br : BanksResp)
        (bank : PBank) (rr : ResolveResp),
      pc.status = 200 → pc.bodyStatus = "success" →
      br.status = 200 → br.bodyStatusTruthy = true →
      br.banks.find? (bankNameMatches input.bankName) = some bank →
      ¬(rr.status = 200 ∧ rr.bodyStatusTruthy = true) →
      verifyAccountNumber input (.ok pc) (.ok br) (.ok rr) = .ok (paycrestOnlyResult input pc)) ∧
    (∀ (input : BankDetails) (pcr : Except String PaycrestVerifyResp)
        (b : Except String BanksResp) (r : Except String ResolveResp) (out : VerifyOut),
      verifyAccountNumber input pcr b r = .ok out → out.success = false →
      ∃ rr, r = .ok rr ∧ rr.status = 200 ∧ rr.bodyStatusTruthy = true ∧
        namesMatch (normalizeAccountName input.accountName.trim.toLower)
          (normalizeAccountName rr.accountName.trim.toLower) = false ∧
        out.verified = false) := by
  have hok : ∀ (pc : PaycrestVerifyResp), pc.status = 200 → pc.bodyStatus = "success" →
      (pc.status == 200 && pc.bodyStatus == "success") = true := by
    intro pc h1 h2
    simp [h1, h2]
  have hbad : ∀ (s : Int) (t : Bool), ¬(s = 200 ∧ t = true) → (s == 200 && t) = false := by
    intro s t h
    apply Bool.eq_false_iff.mpr
    intro hx
    exact h (by simpa [Bool.and_eq_true, beq_iff_eq] using hx)
  refine ⟨?_, ?_, ?_, ?_⟩
  · intro input pc br r h1 h2 h3
    refine ⟨?_, rfl, rfl⟩
    simp [verifyAccountNumber, hok pc h1 h2, hbad br.status br.bodyStatusTruthy h3]
  · intro input pc br r h1 h2 h3 h4 h5
    simp [verifyAccountNumber, hok pc h1 h2, h3, h4, h5]
  · intro input pc br bank rr h1 h2 h3 h4 h5 h6
    simp [verifyAccountNumber, hok pc h1 h2, h3, h4, h5,
      hbad rr.status rr.bodyStatusTruthy h6]
  · intro input pcr b r out hrun hsucc
    cases pcr with
    | error m => simp [verifyAccountNumber] at hrun
    | ok pc =>
      by_cases hc : (pc.status == 200 && pc.bodyStatus == "success") = true
      swap
      · simp [verifyAccountNumber, Bool.eq_false_iff.mpr hc] at hrun
      cases b with
      | error m => simp [verifyAccountNumber, hc] at hrun
      | ok br =>
        by_cases hbr : (br.status == 200 && br.bodyStatusTruthy) = true
        swap
        · simp [verifyAccountNumber, hc, Bool.eq_false_iff.mpr hbr] at hrun
          rw [← hrun] at hsucc
          simp [paycrestOnlyResult] at hsucc
        rcases hfind : br.banks.find? (bankNameMatches input.bankName) with _ | bank
        · simp [verifyAccountNumber, hc, hbr, hfind] at hrun
          rw [← hrun] at hsucc
          simp [paycrestOnlyResult] at hsucc
        cases r with
        | error m => simp [verifyAccountNumber, hc, hbr, hfind] at hrun
        | ok rr =>
          by_cases hrr : (rr.status == 200 && rr.bodyStatusTruthy) = true
          swap
          · simp [verifyAccountNumber, hc, hbr, hfind, Bool.eq_false_iff.mpr hrr] at hrun
            rw [← hrun] at hsucc
            simp [paycrestOnlyResult] at hsucc
          by_cases hnm : namesMatch (normalizeAccountName input.accountName.trim.toLower)
              (normalizeAccountName rr.accountName.trim.toLower) = true
          · simp [verifyAccountNumber, hc, hbr, hfind, hrr, hnm] at hrun
            rw [← hrun] at hsucc
            simp at hsucc
          · simp [verifyAccountNumber, hc, hbr, hfind, hrr,
              Bool.eq_false_iff.mpr hnm] at hrun
            refine ⟨rr, rfl, ?_, ?_, Bool.eq_false_iff.mpr hnm, ?_⟩
            · have := (Bool.and_eq_true _ _).mp hrr
              simpa [beq_iff_eq] using this.1
            · have := (Bool.and_eq_true _ _).mp hrr
              exact this.2
            · rw [← hrun]

/-- C8 witness: the best-effort statements instantiated on a failed
Paystack bank-list fetch. -/
theorem C8_paystack_best_effort_witness :
    verifyAccountNumber ⟨"0123456789", "GTBank", "Ada Lovelace", none⟩
        (.ok ⟨200, "success", none, some "0123456789", some "ADA LOVELACE", some "GTBank"⟩)
        (.ok ⟨503, false, []⟩) (.error "x") =
      .ok (paycrestOnlyResult ⟨"0123456789", "GTBank", "Ada Lovelace", none⟩
        ⟨200, "success", none, some "0123456789", some "ADA LOVELACE", some "GTBank"⟩) := by
  exact (C8_paystack_best_effort.1
    ⟨"0123456789", "GTBank", "Ada Lovelace", none⟩
    ⟨200, "success", none, some "0123456789", some "ADA LOVELACE", some "GTBank"⟩
    ⟨503, false, []⟩ (.error "x") rfl rfl (by decide)).1

end Theorems

end Paymass
